import Mathlib

/-!
Verification of the BVSimSimple beach-volleyball rally simulator.

The Python sources are shallowly embedded: dictionaries become ordered
association lists (Python dicts preserve insertion order and have unique
keys), `Decimal`/`float` probabilities become `ℚ`, functions that can raise
become `Except String`, and the process-wide pseudo-random source becomes an
explicit list of draws in `[0,1)` consumed left to right (`random.choices`
is modelled by its documented cumulative-weight bisection).
-/

attribute [local semireducible] Rat.ofScientific Rat.add Rat.sub Rat.mul Rat.inv

deriving instance DecidableEq for Except

namespace BVSim

/-- Embeds `ActionType` from `types_.py`. -/
inductive ActionType
  | serve
  | reception
  | set
  | attack
  | dig
  | block
  | transition
deriving DecidableEq, Repr

/-- Embeds the `StateTransitionTuple` alias from `types_.py`:
(next state, probability, action type). -/
abbrev Trans := String × ℚ × ActionType

/-- Embeds the `ProbabilityTransitions` alias from `types_.py`:
state name to ordered `(next state, probability)` pairs. -/
abbrev Template := List (String × List (String × ℚ))

/-- Embeds the `RallyStateMachine` dataclass from `state_machine.py`. -/
structure RallyStateMachine where
  transitions : List (String × List Trans)
  terminal_states : List String
  initial_state : String
deriving DecidableEq

/-- Sum of the probabilities of a transition list (the `sum(transition[1] ...)`
pattern used throughout the source). -/
def transSum (ts : List Trans) : ℚ :=
  (ts.map fun t => t.2.1).sum

/-- Embeds `RallyStateMachine.is_terminal_state` from `state_machine.py`. -/
def RallyStateMachine.is_terminal_state (sm : RallyStateMachine) (state : String) : Bool :=
  sm.terminal_states.contains state

/-- Embeds `RallyStateMachine.get_next_states` from `state_machine.py`:
raises `ValueError` when the state is not a key of the transition dict. -/
def get_next_states (sm : RallyStateMachine) (current_state : String) :
    Except String (List Trans) :=
  match sm.transitions.lookup current_state with
  | none => Except.error ("Invalid state: " ++ current_state)
  | some ts => Except.ok ts

/-- Embeds `RallyStateMachine.validate_probabilities` from `state_machine.py`:
every non-empty transition list must sum to 1 within 0.001. -/
def RallyStateMachine.validate_probabilities (sm : RallyStateMachine) : Bool :=
  sm.transitions.all fun e =>
    e.2.isEmpty || !(decide ((1 : ℚ)/1000 < |transSum e.2 - 1|))

/-- Embeds `create_beach_volleyball_state_machine` from `state_definitions.py`. -/
def create_beach_volleyball_state_machine : RallyStateMachine where
  transitions :=
    [("s_serve_ready",
      [("s_serve_ace", 0.04, ActionType.serve),
       ("s_serve_error", 0.12, ActionType.serve),
       ("s_serve_in_play", 0.84, ActionType.serve)]),
     ("s_serve_in_play",
      [("r_reception_error", 0.15, ActionType.reception),
       ("r_reception_perfect", 0.35, ActionType.reception),
       ("r_reception_good", 0.50, ActionType.reception)]),
     ("r_reception_perfect",
      [("r_set_error", 0.08, ActionType.set),
       ("r_set_perfect", 0.57, ActionType.set),
       ("r_set_good", 0.35, ActionType.set)]),
     ("r_reception_good",
      [("r_set_error", 0.18, ActionType.set),
       ("r_set_perfect", 0.17, ActionType.set),
       ("r_set_good", 0.50, ActionType.set),
       ("r_set_poor", 0.15, ActionType.set)]),
     ("r_set_perfect",
      [("r_attack_kill", 0.42, ActionType.attack),
       ("r_attack_error", 0.10, ActionType.attack),
       ("r_attack_blocked", 0.18, ActionType.attack),
       ("r_attack_defended", 0.30, ActionType.attack)]),
     ("r_set_good",
      [("r_attack_kill", 0.28, ActionType.attack),
       ("r_attack_error", 0.12, ActionType.attack),
       ("r_attack_blocked", 0.27, ActionType.attack),
       ("r_attack_defended", 0.33, ActionType.attack)]),
     ("r_set_poor",
      [("r_attack_kill", 0.12, ActionType.attack),
       ("r_attack_error", 0.28, ActionType.attack),
       ("r_attack_blocked", 0.35, ActionType.attack),
       ("r_attack_defended", 0.25, ActionType.attack)]),
     ("r_attack_blocked",
      [("s_block_kill", 0.20, ActionType.block),
       ("s_block_error", 0.15, ActionType.block),
       ("s_dig_perfect", 0.35, ActionType.block),
       ("s_dig_good", 0.30, ActionType.block)]),
     ("r_attack_defended",
      [("s_dig_error", 0.30, ActionType.dig),
       ("s_dig_perfect", 0.35, ActionType.dig),
       ("s_dig_good", 0.35, ActionType.dig)]),
     ("s_dig_perfect",
      [("s_set_error", 0.08, ActionType.set),
       ("s_set_perfect", 0.57, ActionType.set),
       ("s_set_good", 0.35, ActionType.set)]),
     ("s_dig_good",
      [("s_set_error", 0.18, ActionType.set),
       ("s_set_perfect", 0.17, ActionType.set),
       ("s_set_good", 0.50, ActionType.set),
       ("s_set_poor", 0.15, ActionType.set)]),
     ("s_set_perfect",
      [("s_attack_kill", 0.42, ActionType.attack),
       ("s_attack_error", 0.10, ActionType.attack),
       ("s_attack_blocked", 0.18, ActionType.attack),
       ("s_attack_defended", 0.30, ActionType.attack)]),
     ("s_set_good",
      [("s_attack_kill", 0.28, ActionType.attack),
       ("s_attack_error", 0.12, ActionType.attack),
       ("s_attack_blocked", 0.27, ActionType.attack),
       ("s_attack_defended", 0.33, ActionType.attack)]),
     ("s_set_poor",
      [("s_attack_kill", 0.12, ActionType.attack),
       ("s_attack_error", 0.28, ActionType.attack),
       ("s_attack_blocked", 0.35, ActionType.attack),
       ("s_attack_defended", 0.25, ActionType.attack)]),
     ("s_attack_blocked",
      [("r_block_kill", 0.20, ActionType.block),
       ("r_block_error", 0.15, ActionType.block),
       ("r_dig_perfect", 0.35, ActionType.block),
       ("r_dig_good", 0.30, ActionType.block)]),
     ("s_attack_defended",
      [("r_dig_error", 0.30, ActionType.dig),
       ("r_dig_perfect", 0.35, ActionType.dig),
       ("r_dig_good", 0.35, ActionType.dig)]),
     ("r_dig_perfect",
      [("r_set_error", 0.05, ActionType.set),
       ("r_set_perfect", 0.60, ActionType.set),
       ("r_set_good", 0.35, ActionType.set)]),
     ("r_dig_good",
      [("r_set_error", 0.15, ActionType.set),
       ("r_set_perfect", 0.20, ActionType.set),
       ("r_set_good", 0.50, ActionType.set),
       ("r_set_poor", 0.15, ActionType.set)])]
  terminal_states :=
    ["s_serve_ace", "r_reception_error", "r_set_error", "r_attack_error",
     "s_block_kill", "s_attack_kill", "r_dig_error", "r_block_error",
     "s_serve_error", "r_attack_kill", "s_dig_error", "s_block_error",
     "s_set_error", "s_attack_error", "r_block_kill"]
  initial_state := "s_serve_ready"

/-- The serving-team win set from `get_winning_team` in `state_definitions.py`. -/
def serving_team_wins : List String :=
  ["s_serve_ace", "r_reception_error", "r_set_error", "r_attack_error",
   "s_block_kill", "s_attack_kill", "r_dig_error", "r_block_error"]

/-- The receiving-team win set from `get_winning_team` in `state_definitions.py`. -/
def receiving_team_wins : List String :=
  ["s_serve_error", "r_attack_kill", "s_dig_error", "s_block_error",
   "s_set_error", "s_attack_error", "r_block_kill"]

/-- Embeds `get_winning_team` from `state_definitions.py`. -/
def get_winning_team (terminal_state : String) : Except String String :=
  if serving_team_wins.contains terminal_state then Except.ok "serving"
  else if receiving_team_wins.contains terminal_state then Except.ok "receiving"
  else Except.error ("State " ++ terminal_state ++ " is not a recognized terminal state")

/-- Consume the next pseudo-random draw; the stream defaults to 0 when
exhausted (Python's generator never exhausts). -/
def nextDraw (draws : List ℚ) : ℚ × List ℚ :=
  match draws with
  | [] => (0, [])
  | u :: rest => (u, rest)

/-- Running cumulative sums, as built by `random.choices` (via `itertools.accumulate`). -/
def cumFrom (acc : ℚ) : List ℚ → List ℚ
  | [] => []
  | w :: ws => (acc + w) :: cumFrom (acc + w) ws

/-- `bisect.bisect_right(cum, x, 0, hi)` starting the scan at index `j`:
the first index `j < hi` whose cumulative weight exceeds `x`, else `hi`. -/
def bisectRight (x : ℚ) (hi : Nat) : Nat → List ℚ → Nat
  | _, [] => hi
  | j, c :: cs => if hi ≤ j then hi else if x < c then j else bisectRight x hi (j + 1) cs

/-- Embeds `random.choices(population, weights, k=1)[0]` (CPython ≥ 3.9):
raises `ValueError` when the total weight is not positive, otherwise selects
`population[bisect(cum_weights, u * total, 0, len(population) - 1)]`. -/
def pyChoices (population : List String) (weights : List ℚ) (u : ℚ) :
    Except String String :=
  let cum := cumFrom 0 weights
  let total := cum.getLast?.getD 0
  if total ≤ 0 then Except.error "Total of weights must be greater than zero"
  else
    match population.get? (bisectRight (u * total) (population.length - 1) 0 cum) with
    | some s => Except.ok s
    | none => Except.error "list index out of range"

/-- Embeds `simulate_rally_step` from `rally_simulator.py`. -/
def simulate_rally_step (sm : RallyStateMachine) (current_state : String)
    (draws : List ℚ) : Except String (Option String × List ℚ) :=
  if sm.is_terminal_state current_state then Except.ok (none, draws)
  else
    match get_next_states sm current_state with
    | Except.error e => Except.error e
    | Except.ok transitions =>
      if transitions.isEmpty then Except.ok (none, draws)
      else
        let d := nextDraw draws
        match pyChoices (transitions.map fun t => t.1)
            (transitions.map fun t => t.2.1) d.1 with
        | Except.error e => Except.error e
        | Except.ok selected => Except.ok (some selected, d.2)

/-- The final `if/else` of `simulate_complete_rally` in `rally_simulator.py`:
append the terminal state and name the winner, or report the step budget. -/
def rallyFinish (sm : RallyStateMachine) (max_steps : Nat)
    (rally_sequence : List String) (current_state : String) (draws : List ℚ) :
    Except String (List String × String × List ℚ) :=
  if sm.is_terminal_state current_state then
    match get_winning_team current_state with
    | Except.error e => Except.error e
    | Except.ok winner =>
        Except.ok (rally_sequence ++ [current_state], winner ++ " team wins", draws)
  else
    Except.ok (rally_sequence, "Rally exceeded " ++ toString max_steps ++ " steps", draws)

/-- The `while` loop of `simulate_complete_rally`, recursing on the remaining
step budget `max_steps - step`. -/
def rallyLoop (sm : RallyStateMachine) (max_steps : Nat) :
    Nat → String → List String → List ℚ →
      Except String (List String × String × List ℚ)
  | 0, current_state, seq, draws => rallyFinish sm max_steps seq current_state draws
  | remaining + 1, current_state, seq, draws =>
    if sm.is_terminal_state current_state then
      rallyFinish sm max_steps seq current_state draws
    else
      match simulate_rally_step sm current_state draws with
      | Except.error e => Except.error e
      | Except.ok (none, draws2) =>
          rallyFinish sm max_steps (seq ++ [current_state]) current_state draws2
      | Except.ok (some next_state, draws2) =>
          rallyLoop sm max_steps remaining next_state (seq ++ [current_state]) draws2

/-- Embeds `simulate_complete_rally` from `rally_simulator.py` (default
`max_steps` is 50 at every call site). -/
def simulate_complete_rally (sm : RallyStateMachine) (max_steps : Nat)
    (draws : List ℚ) : Except String (List String × String × List ℚ) :=
  rallyLoop sm max_steps max_steps sm.initial_state [] draws

/-- Whether the first character list is a prefix of the second. -/
def isPrefixChars : List Char → List Char → Bool
  | [], _ => true
  | _ :: _, [] => false
  | a :: as, b :: bs => a == b && isPrefixChars as bs

/-- Whether the first character list occurs contiguously in the second. -/
def isInfixChars (sub : List Char) : List Char → Bool
  | [] => sub.isEmpty
  | c :: rest => isPrefixChars sub (c :: rest) || isInfixChars sub rest

/-- Python's `sub in s` substring test. -/
def strContains (sub s : String) : Bool :=
  isInfixChars sub.toList s.toList

/-- Python's `s.startswith(pre)`. -/
def strStartsWith (s pre : String) : Bool :=
  isPrefixChars pre.toList s.toList

/-- Embeds `_infer_action_type` from `state_machine_builder.py`. -/
def infer_action_type (state_name : String) : ActionType :=
  if strContains "serve" state_name then ActionType.serve
  else if strContains "reception" state_name then ActionType.reception
  else if strContains "set" state_name then ActionType.set
  else if strContains "attack" state_name then ActionType.attack
  else if strContains "dig" state_name then ActionType.dig
  else if strContains "block" state_name then ActionType.block
  else if strContains "transition" state_name then ActionType.transition
  else ActionType.transition

/-- Embeds `_validate_state_probabilities` from `state_machine_builder.py`. -/
def validate_state_probabilities (state : String) (transitions : List (String × ℚ)) :
    Except String Unit :=
  let total_prob := (transitions.map fun t => t.2).sum
  if |total_prob - 1| > (1 : ℚ)/1000 then
    Except.error ("Probabilities for state " ++ state ++ " do not sum to 1.0")
  else Except.ok ()

/-- Python `dict` assignment `d[k] = v`: replace the value in place when the
key exists, else append the binding. -/
def dictInsert {α : Type} (d : List (String × α)) (k : String) (v : α) :
    List (String × α) :=
  match d with
  | [] => [(k, v)]
  | (k2, v2) :: rest =>
    if k2 == k then (k, v) :: rest else (k2, v2) :: dictInsert rest k v

/-- Python `{**a, **b}` / `dict.update`: insert every binding of `b` into `a`. -/
def dictMerge {α : Type} (a b : List (String × α)) : List (String × α) :=
  b.foldl (fun d kv => dictInsert d kv.1 kv.2) a

/-- The per-template loop of `create_state_machine_from_teams`: validate each
state and tag each pair with the inferred action type. -/
def addTeamStates (team_probs : Template) (acc : List (String × List Trans)) :
    Except String (List (String × List Trans)) :=
  match team_probs with
  | [] => Except.ok acc
  | (state, prob_transitions) :: rest =>
    match validate_state_probabilities state prob_transitions with
    | Except.error e => Except.error e
    | Except.ok _ =>
      addTeamStates rest
        (dictInsert acc state
          (prob_transitions.map fun p => (p.1, p.2, infer_action_type state)))

/-- Embeds `create_state_machine_from_teams` from `state_machine_builder.py`. -/
def create_state_machine_from_teams
    (team_serving_probs team_receiving_probs : Template) :
    Except String RallyStateMachine :=
  let default_sm := create_beach_volleyball_state_machine
  match addTeamStates team_serving_probs [] with
  | Except.error e => Except.error e
  | Except.ok t1 =>
    match addTeamStates team_receiving_probs t1 with
    | Except.error e => Except.error e
    | Except.ok t2 =>
      Except.ok
        { transitions := t2,
          terminal_states := default_sm.terminal_states,
          initial_state := default_sm.initial_state }

/-- Embeds `_separate_team_states` from `match_simulator.py`. -/
def separate_team_states (team_template : Template) : Template × Template :=
  match team_template with
  | [] => ([], [])
  | (state, transitions) :: rest =>
    let r := separate_team_states rest
    if strStartsWith state "s_" then ((state, transitions) :: r.1, r.2)
    else if strStartsWith state "r_" then (r.1, (state, transitions) :: r.2)
    else r

/-- The combined per-point dict `{**serving_states, **receiving_states}` of
`simulate_match_points`, with the serving team chosen by point parity. -/
def combinedForPoint (team_a team_b : Template) (point : Nat) : Template :=
  if point % 2 == 0 then
    dictMerge (separate_team_states team_a).1 (separate_team_states team_b).2
  else
    dictMerge (separate_team_states team_b).1 (separate_team_states team_a).2

/-- The `if "serving" in outcome / elif "receiving" in outcome` scoring of
`simulate_match_points`: 1 when team A won the point, else 0. -/
def pointIncrement (serving_team_is_a : Bool) (outcome : String) : Nat :=
  if strContains "serving" outcome then
    if serving_team_is_a then 1 else 0
  else if strContains "receiving" outcome then
    if serving_team_is_a then 0 else 1
  else 0

/-- The `for point in range(num_points)` loop of `simulate_match_points`,
recursing on the number of points still to play. -/
def matchLoop (team_a_template team_b_template : Template) :
    Nat → Nat → Nat → List ℚ → Except String (Nat × List ℚ)
  | 0, _point, team_a_wins, draws => Except.ok (team_a_wins, draws)
  | remaining + 1, point, team_a_wins, draws =>
    let serving_team_is_a := point % 2 == 0
    match create_state_machine_from_teams
        (combinedForPoint team_a_template team_b_template point) [] with
    | Except.error e => Except.error e
    | Except.ok sm =>
      match simulate_complete_rally sm 50 draws with
      | Except.error e => Except.error e
      | Except.ok (_rally_sequence, outcome, draws2) =>
        matchLoop team_a_template team_b_template remaining (point + 1)
          (team_a_wins + pointIncrement serving_team_is_a outcome) draws2

/-- Embeds `simulate_match_points` from `match_simulator.py`. -/
def simulate_match_points (team_a_template team_b_template : Template)
    (num_points : Nat) (draws : List ℚ) : Except String (ℚ × List ℚ) :=
  if team_a_template.isEmpty || team_b_template.isEmpty then
    Except.error "Team templates cannot be empty"
  else
    match matchLoop team_a_template team_b_template num_points 0 0 draws with
    | Except.error e => Except.error e
    | Except.ok (team_a_wins, draws2) =>
      if num_points == 0 then Except.error "division by zero"
      else Except.ok ((team_a_wins : ℚ) / (num_points : ℚ), draws2)

/-- The statistic-to-transition matching table of
`create_modified_state_machine` in `elasticity_analysis.py`. -/
def shouldModify (stat_name state next_state : String) : Bool :=
  (stat_name == "serve_ace_rate" && state == "s_serve_ready"
    && strContains "ace" next_state) ||
  (stat_name == "serve_error_rate" && state == "s_serve_ready"
    && strContains "error" next_state) ||
  (stat_name == "reception_perfect_rate" && state == "s_serve_in_play"
    && strContains "perfect" next_state) ||
  (stat_name == "reception_good_rate" && state == "s_serve_in_play"
    && strContains "good" next_state) ||
  (stat_name == "attack_kill_from_perfect_set" && state == "r_set_perfect"
    && strContains "kill" next_state) ||
  (stat_name == "attack_kill_from_good_set" && state == "r_set_good"
    && strContains "kill" next_state) ||
  (stat_name == "dig_perfect_rate" && state == "r_attack_defended"
    && strContains "perfect" next_state) ||
  (stat_name == "block_kill_rate" && state == "r_attack_blocked"
    && strContains "s_block_kill" next_state)

/-- `sum(float(p) for j, ns, p, at in enumerate(transitions) if j != i)`:
the probability mass of every transition except the `i`-th, with `j` the
running `enumerate` index. -/
def sumOthers (i : Nat) : Nat → List Trans → ℚ
  | _, [] => 0
  | j, t :: rest => (if j = i then 0 else t.2.1) + sumOthers i (j + 1) rest

/-- The `new_transitions` list comprehension of
`create_modified_state_machine`: entry `i` gets `new_prob`, every other entry
is scaled by `scale = 1 - reduction_factor`; `j` is the `enumerate` index. -/
def buildNewTransitions (i : Nat) (new_prob scale : ℚ) :
    Nat → List Trans → List Trans
  | _, [] => []
  | j, t :: rest =>
    (if j = i then (t.1, new_prob, t.2.2) else (t.1, t.2.1 * scale, t.2.2)) ::
      buildNewTransitions i new_prob scale (j + 1) rest

/-- The body of `create_modified_state_machine` that runs once
`should_modify` selected index `i` of a state's transition list: cap the
improved probability at 1, reduce the others proportionally, and renormalize
when the check sum strays beyond 0.001; `none` when the guard
`total_other_prob > 0 and improvement_amount > 0` fails (then
`improvement_applied` is not set). -/
def improveCore (transitions : List Trans) (i : Nat) (old_prob factor : ℚ) :
    Option (List Trans) :=
  let new_prob0 := old_prob + old_prob * (factor - 1)
  let new_prob := if new_prob0 > 1 then 1 else new_prob0
  let improvement_amount := if new_prob0 > 1 then 1 - old_prob else old_prob * (factor - 1)
  let total_other_prob := sumOthers i 0 transitions
  if 0 < total_other_prob ∧ 0 < improvement_amount then
    let reduction_factor := improvement_amount / total_other_prob
    let new_transitions := buildNewTransitions i new_prob (1 - reduction_factor) 0 transitions
    let total_check := transSum new_transitions
    some (if (1 : ℚ)/1000 < |total_check - 1| then
      new_transitions.map fun t => (t.1, t.2.1 / total_check, t.2.2)
    else new_transitions)
  else none

/-- One state's inner `for i, (next_state, probability, action_type) in
enumerate(transitions)` loop: the first matching index (if any) is improved,
then the loop breaks. -/
def improveList (transitions : List Trans) (i : Nat) (factor : ℚ) :
    Option (List Trans) :=
  match transitions.get? i with
  | none => none
  | some t => improveCore transitions i t.2.1 factor

/-- The outer `for state, transitions in modified_transitions.items()` loop of
`create_modified_state_machine`; the Bool is `improvement_applied`. -/
def modifyTransitions (stat_name : String) (factor : ℚ) :
    List (String × List Trans) → List (String × List Trans) × Bool
  | [] => ([], false)
  | (state, transitions) :: rest =>
    let r := modifyTransitions stat_name factor rest
    match transitions.findIdx? (fun t => shouldModify stat_name state t.1) with
    | none => ((state, transitions) :: r.1, r.2)
    | some i =>
      match improveList transitions i factor with
      | none => ((state, transitions) :: r.1, r.2)
      | some new_transitions => ((state, new_transitions) :: r.1, true)

/-- Embeds `create_modified_state_machine` from `elasticity_analysis.py`.
The source's `baseline_probs` parameter is never read there and is omitted. -/
def create_modified_state_machine (stat_name : String) (improvement_factor : ℚ) :
    Except String RallyStateMachine :=
  let sm := create_beach_volleyball_state_machine
  let r := modifyTransitions stat_name improvement_factor sm.transitions
  if r.2 then
    Except.ok
      { transitions := r.1,
        terminal_states := sm.terminal_states,
        initial_state := sm.initial_state }
  else Except.error ("Could not find transition for stat: " ++ stat_name)

/-- Embeds `convert_state_machine_to_template` from `elasticity_analysis.py`. -/
def convert_state_machine_to_template (sm : RallyStateMachine) : Template :=
  (sm.transitions.filter fun e => !(sm.is_terminal_state e.1)).map
    fun e => (e.1, e.2.map fun t => (t.1, t.2.1))

/-- Python float division: raises `ZeroDivisionError` on a zero divisor. -/
def pyDiv (a b : ℚ) : Except String ℚ :=
  if b = 0 then Except.error "float division by zero" else Except.ok (a / b)

/-- Embeds `calculate_elasticity` from `elasticity_analysis.py`. The
`try/except` block is modelled by catching the inner `Except`: on any inner
error the function prints the message and returns the sentinel 0.0, so the
result carries the list of printed error reports. -/
def calculate_elasticity (stat_name : String) (improvement_pct : ℚ)
    (num_points : Nat) (draws : List ℚ) : Except String (ℚ × List String) :=
  let baseline_sm := create_beach_volleyball_state_machine
  let baseline_template := convert_state_machine_to_template baseline_sm
  match simulate_match_points baseline_template baseline_template num_points draws with
  | Except.error e => Except.error e
  | Except.ok (baseline_win_rate, draws2) =>
    let improvement_factor := 1 + improvement_pct
    let inner : Except String ℚ :=
      match create_modified_state_machine stat_name improvement_factor with
      | Except.error e => Except.error e
      | Except.ok improved_sm =>
        let improved_template := convert_state_machine_to_template improved_sm
        match simulate_match_points improved_template baseline_template num_points draws2 with
        | Except.error e => Except.error e
        | Except.ok (improved_win_rate, _draws3) =>
          let win_rate_change := improved_win_rate - baseline_win_rate
          pyDiv win_rate_change (baseline_win_rate * improvement_pct)
    match inner with
    | Except.ok elasticity => Except.ok (elasticity, [])
    | Except.error e =>
        Except.ok (0, ["Error calculating elasticity for " ++ stat_name ++ ": " ++ e])

/-- The statistic names `create_modified_state_machine` can match (the eight
cases of its `should_modify` chain). -/
def supported_stats : List String :=
  ["serve_ace_rate", "serve_error_rate", "reception_perfect_rate",
   "reception_good_rate", "attack_kill_from_perfect_set",
   "attack_kill_from_good_set", "dig_perfect_rate", "block_kill_rate"]

/-- The canonical baseline template used by `calculate_elasticity`. -/
def baseline_template : Template :=
  convert_state_machine_to_template create_beach_volleyball_state_machine

/-- Weighted selection over the canonical serve distribution, for an arbitrary
draw: the three cumulative thresholds are 0.04, 0.16 and 1. -/
lemma pyChoices_serve (u : ℚ) :
    pyChoices ["s_serve_ace", "s_serve_error", "s_serve_in_play"]
      [0.04, 0.12, 0.84] u =
      Except.ok (if u * 1 < 0.04 then "s_serve_ace"
        else if u * 1 < 0.16 then "s_serve_error" else "s_serve_in_play") := by
  simp only [pyChoices, cumFrom, bisectRight]
  norm_num
  split_ifs <;> rfl

/-- C3 counterexample: the canonical serve-ready distribution gives the ace
outcome probability 0.04, not the 0.08 the claim states. -/
theorem C3_counterexample_serve_probs :
    ((create_beach_volleyball_state_machine).transitions.lookup "s_serve_ready").map
        (fun l => l.map fun t => (t.1, t.2.1)) =
      some [("s_serve_ace", (0.04 : ℚ)), ("s_serve_error", 0.12),
            ("s_serve_in_play", 0.84)] ∧
    ((0.04 : ℚ) ≠ 0.08) := by
  exact ⟨by decide, by decide⟩

/-- C3 (amended): the canonical serve-ready state has exactly the three
transitions ace 0.04, error 0.12, in-play 0.84; one simulation step from it
always lands in exactly one of them, the ace being terminal with the serving
side winning, the error terminal with the receiving side winning, and in-play
a continuation state. -/
theorem C3_amended_serve_scenario :
    (create_beach_volleyball_state_machine).transitions.lookup "s_serve_ready" =
      some [("s_serve_ace", 0.04, ActionType.serve),
            ("s_serve_error", 0.12, ActionType.serve),
            ("s_serve_in_play", 0.84, ActionType.serve)] ∧
    (∀ draws : List ℚ, ∃ s rest,
      simulate_rally_step create_beach_volleyball_state_machine
          "s_serve_ready" draws = Except.ok (some s, rest) ∧
        (s = "s_serve_ace" ∨ s = "s_serve_error" ∨ s = "s_serve_in_play")) ∧
    ((create_beach_volleyball_state_machine).is_terminal_state "s_serve_ace" = true ∧
      get_winning_team "s_serve_ace" = Except.ok "serving") ∧
    ((create_beach_volleyball_state_machine).is_terminal_state "s_serve_error" = true ∧
      get_winning_team "s_serve_error" = Except.ok "receiving") ∧
    ((create_beach_volleyball_state_machine).is_terminal_state "s_serve_in_play" = false ∧
      ((create_beach_volleyball_state_machine).transitions.lookup "s_serve_in_play").isSome
        = true) := by
  refine ⟨by decide, ?_, by decide, by decide, by decide⟩
  rintro (_ | ⟨u, t⟩)
  · exact ⟨"s_serve_ace", [], by decide, by simp⟩
  · have h1 : (create_beach_volleyball_state_machine).is_terminal_state
        "s_serve_ready" = false := by decide
    have h2 : get_next_states create_beach_volleyball_state_machine "s_serve_ready" =
        Except.ok [("s_serve_ace", 0.04, ActionType.serve),
          ("s_serve_error", 0.12, ActionType.serve),
          ("s_serve_in_play", 0.84, ActionType.serve)] := by decide
    have hstep : simulate_rally_step create_beach_volleyball_state_machine
        "s_serve_ready" (u :: t) =
        Except.ok (some (if u * 1 < 0.04 then "s_serve_ace"
          else if u * 1 < 0.16 then "s_serve_error" else "s_serve_in_play"), t) := by
      simp only [simulate_rally_step, h1, h2, Bool.false_eq_true, if_false, nextDraw,
        List.map_cons, List.map_nil, List.isEmpty_cons]
      rw [pyChoices_serve]
    refine ⟨_, t, hstep, ?_⟩
    split_ifs <;> simp

/-- C5 counterexample: `get_next_states` does fail on a terminal state — the
canonical machine's terminal state `s_serve_ace` is absent from the transition
mapping and the lookup raises. -/
theorem C5_counterexample_terminal_state_fails :
    (create_beach_volleyball_state_machine).is_terminal_state "s_serve_ace" = true ∧
    get_next_states create_beach_volleyball_state_machine "s_serve_ace" =
      Except.error "Invalid state: s_serve_ace" := by
  exact ⟨by decide, by decide⟩

/-- C5 (amended): for every machine and state, `get_next_states` returns the
ordered transition list when the state is a key of the transition mapping, and
fails with the unknown-state error exactly when it is absent — whether or not
the state is terminal. -/
theorem C5_amended_get_next_states (sm : RallyStateMachine) (s : String) :
    (∃ ts, sm.transitions.lookup s = some ts ∧
      get_next_states sm s = Except.ok ts) ∨
    (sm.transitions.lookup s = none ∧
      get_next_states sm s = Except.error ("Invalid state: " ++ s)) := by
  unfold get_next_states
  rcases h : sm.transitions.lookup s with _ | ts
  · exact Or.inr ⟨rfl, rfl⟩
  · exact Or.inl ⟨ts, rfl, rfl⟩

/-- C2 (code bug): for a statistic matching no transition,
`create_modified_state_machine` raises the target-not-found `ValueError`
naming the statistic, but `calculate_elasticity` catches every exception,
prints the report, and returns the value 0 to its caller. -/
theorem C2_unknown_stat_returns_zero :
    create_modified_state_machine "no_such_stat" (21/20) =
      Except.error "Could not find transition for stat: no_such_stat" ∧
    calculate_elasticity "no_such_stat" (1/20) 1 [1/20] =
      Except.ok (0,
        ["Error calculating elasticity for no_such_stat: Could not find transition for stat: no_such_stat"]) := by
  exact ⟨by decide, by decide⟩

/-- C7: perturbing `serve_ace_rate` by the factor 1.05 raises the serve-ready
to ace probability from 0.04 to 0.042, lowers the sum of the other two
serve-ready probabilities by the same 0.002, and leaves their mutual ratio
unchanged. -/
theorem C7_serve_ace_perturbation :
    (create_modified_state_machine "serve_ace_rate" (1.05 : ℚ)).map
        (fun sm => sm.transitions.lookup "s_serve_ready") =
      Except.ok (some
        [("s_serve_ace", 21/500, ActionType.serve),
         ("s_serve_error", 479/4000, ActionType.serve),
         ("s_serve_in_play", 3353/4000, ActionType.serve)]) ∧
    ((0.04 : ℚ) < 21/500) ∧
    ((479/4000 + 3353/4000 : ℚ) < 0.12 + 0.84) ∧
    ((479/4000 + 3353/4000 : ℚ) = (0.12 + 0.84) - (21/500 - 0.04)) ∧
    ((479/4000 : ℚ) * 0.84 = (3353/4000) * 0.12) := by
  refine ⟨by decide, by decide, by decide, by norm_num, by norm_num⟩

/-- A string starting with `s_` does not start with `r_`. -/
lemma sStart_not_rStart (s : String) (h : strStartsWith s "s_" = true) :
    strStartsWith s "r_" = false := by
  unfold strStartsWith at h ⊢
  obtain ⟨l⟩ := s
  rcases l with _ | ⟨c, cs⟩
  · simp [isPrefixChars] at h
  · have hc : ('s' == c) = true := by
      by_contra hne
      simp only [show ("s_".toList) = ['s', '_'] from rfl, isPrefixChars] at h
      simp [Bool.eq_false_iff.mpr hne] at h
    have hcs : c = 's' := (beq_iff_eq.mp hc).symm
    subst hcs
    simp [show ("r_".toList) = ['r', '_'] from rfl, isPrefixChars]

/-- Inserting under a different key does not change a lookup. -/
lemma lookup_dictInsert_of_ne {α : Type} (d : List (String × α)) (k2 : String) (v : α)
    (k : String) (h : k2 ≠ k) : (dictInsert d k2 v).lookup k = d.lookup k := by
  induction d with
  | nil => simp [dictInsert, List.lookup_cons, beq_false_of_ne (Ne.symm h)]
  | cons e rest ih =>
    obtain ⟨ke, ve⟩ := e
    by_cases he : ke == k2
    · simp only [dictInsert, he, if_true]
      have : ke = k2 := beq_iff_eq.mp he
      subst this
      simp [List.lookup_cons, beq_false_of_ne (Ne.symm h)]
    · simp only [dictInsert, he, Bool.false_eq_true, if_false]
      simp only [List.lookup_cons]
      cases hk : (k == ke) <;> simp [ih]

/-- Merging in a dict none of whose keys is `k` does not change `k`'s lookup. -/
lemma lookup_dictMerge {α : Type} (b : List (String × α)) (a : List (String × α))
    (k : String) (h : ∀ e ∈ b, e.1 ≠ k) :
    (dictMerge a b).lookup k = a.lookup k := by
  induction b generalizing a with
  | nil => rfl
  | cons e bs ih =>
    show (dictMerge (dictInsert a e.1 e.2) bs).lookup k = _
    rw [ih (dictInsert a e.1 e.2) (fun e2 he2 => h e2 (List.mem_cons_of_mem _ he2))]
    exact lookup_dictInsert_of_ne a e.1 e.2 k (h e (List.mem_cons_self e bs))

/-- Filtering by a key predicate the key satisfies does not change its lookup. -/
lemma lookup_filter_key {α : Type} (t : List (String × α)) (p : String → Bool)
    (k : String) (hk : p k = true) :
    (t.filter fun e => p e.1).lookup k = t.lookup k := by
  induction t with
  | nil => rfl
  | cons e rest ih =>
    obtain ⟨ke, ve⟩ := e
    by_cases he : k = ke
    · subst he
      simp [List.filter_cons, hk, List.lookup_cons, ih]
    · by_cases hp : p ke <;>
        simp [List.filter_cons, hp, List.lookup_cons, beq_false_of_ne he, ih]

/-- `separate_team_states` computes the two prefix filters. -/
lemma separate_eq_filters (t : Template) :
    separate_team_states t =
      (t.filter fun e => strStartsWith e.1 "s_",
       t.filter fun e => strStartsWith e.1 "r_") := by
  induction t with
  | nil => rfl
  | cons e rest ih =>
    obtain ⟨st, tr⟩ := e
    by_cases hs : strStartsWith st "s_"
    · simp [separate_team_states, ih, List.filter_cons, hs, sStart_not_rStart st hs]
    · by_cases hr : strStartsWith st "r_" <;>
        simp [separate_team_states, ih, List.filter_cons, hs, hr]

/-- C10: `_separate_team_states` keeps exactly the `s_`-prefixed entries as the
serving part and exactly the `r_`-prefixed entries as the receiving part
(anything else lands in neither), so in every simulated point the combined
per-point dict resolves `s_serve_in_play` to the serving team's template. -/
theorem C10_template_separation :
    (∀ t : Template, separate_team_states t =
      (t.filter fun e => strStartsWith e.1 "s_",
       t.filter fun e => strStartsWith e.1 "r_")) ∧
    (∀ team_a team_b : Template, ∀ point : Nat,
      (combinedForPoint team_a team_b point).lookup "s_serve_in_play" =
        (if point % 2 == 0 then team_a else team_b).lookup "s_serve_in_play") := by
  refine ⟨separate_eq_filters, ?_⟩
  intro a b point
  have key : ∀ st other : Template,
      (dictMerge (separate_team_states st).1 (separate_team_states other).2).lookup
        "s_serve_in_play" = st.lookup "s_serve_in_play" := by
    intro st other
    rw [separate_eq_filters st, separate_eq_filters other]
    rw [lookup_dictMerge]
    · exact lookup_filter_key st (fun s => strStartsWith s "s_")
        "s_serve_in_play" (by decide)
    · intro e he hk
      have hr := (List.mem_filter.mp he).2
      rw [hk] at hr
      exact absurd hr (by decide)
  unfold combinedForPoint
  split
  · exact key a b
  · exact key b a

/-- The per-point score increment is at most 1. -/
lemma pointIncrement_le_one (b : Bool) (o : String) : pointIncrement b o ≤ 1 := by
  unfold pointIncrement
  split_ifs <;> simp

/-- A completed match loop adds at most one win per remaining point. -/
lemma matchLoop_wins_le (a b : Template) :
    ∀ (rem point wins : Nat) (draws : List ℚ) (wins2 : Nat) (rest : List ℚ),
      matchLoop a b rem point wins draws = Except.ok (wins2, rest) →
        wins2 ≤ wins + rem := by
  intro rem
  induction rem with
  | zero =>
    intro point wins draws wins2 rest h
    simp only [matchLoop, Except.ok.injEq, Prod.mk.injEq] at h
    omega
  | succ n ih =>
    intro point wins draws wins2 rest h
    simp only [matchLoop] at h
    split at h
    · exact absurd h (by simp)
    · split at h
      · exact absurd h (by simp)
      · next seq outcome draws2 hr =>
        have := ih (point + 1) (wins + pointIncrement (point % 2 == 0) outcome) draws2
          wins2 rest h
        have hb := pointIncrement_le_one (point % 2 == 0) outcome
        omega

/-- C8 counterexample: two non-empty templates whose probabilities do not sum
to 1 make `simulate_match_points` raise the validation error instead of
returning a fraction, even though `num_points > 0`. -/
theorem C8_counterexample_invalid_template :
    ([("s_serve_ready", [("s_serve_ace", (1:ℚ)/2)])] : Template) ≠ [] ∧
    ([("x", [("y", (1:ℚ))])] : Template) ≠ [] ∧
    simulate_match_points [("s_serve_ready", [("s_serve_ace", (1:ℚ)/2)])]
        [("x", [("y", (1:ℚ))])] 1 [] =
      Except.error "Probabilities for state s_serve_ready do not sum to 1.0" := by
  exact ⟨by decide, by decide, by decide⟩

/-- C8 (amended): `simulate_match_points` fails with the empty-template error
when either template is empty, and whenever it does return a value for
`num_points > 0` that value is `wins / num_points` for some `wins ≤ num_points`
and so lies in `[0, 1]` (invalid templates can instead raise a validation
error before any value is returned). -/
theorem C8_amended_win_fraction (team_a team_b : Template) (n : Nat)
    (draws : List ℚ) (hn : 0 < n) :
    ((team_a = [] ∨ team_b = []) →
      simulate_match_points team_a team_b n draws =
        Except.error "Team templates cannot be empty") ∧
    (∀ v rest, simulate_match_points team_a team_b n draws = Except.ok (v, rest) →
      0 ≤ v ∧ v ≤ 1 ∧ ∃ wins : Nat, wins ≤ n ∧ v = (wins : ℚ) / (n : ℚ)) := by
  constructor
  · rintro (h | h) <;> subst h <;> simp [simulate_match_points]
  · intro v rest h
    unfold simulate_match_points at h
    by_cases hemp : team_a.isEmpty || team_b.isEmpty
    · rw [if_pos hemp] at h
      exact absurd h (by simp)
    · rw [if_neg hemp] at h
      rcases hml : matchLoop team_a team_b n 0 0 draws with e | ⟨wins, draws2⟩ <;>
        rw [hml] at h
      · exact absurd h (by simp)
      · have hne : (n == 0) = false := by
          simp only [beq_eq_false_iff_ne, ne_eq]
          omega
        rw [hne] at h
        simp only [Bool.false_eq_true, if_false, Except.ok.injEq, Prod.mk.injEq] at h
        obtain ⟨hv, -⟩ := h
        have hw : wins ≤ n := by
          have := matchLoop_wins_le team_a team_b n 0 0 draws wins draws2 hml
          omega
        have hnq : (0 : ℚ) < (n : ℚ) := by exact_mod_cast hn
        refine ⟨?_, ?_, wins, hw, hv.symm⟩
        · rw [← hv]
          positivity
        · rw [← hv]
          rw [div_le_one hnq]
          exact_mod_cast hw

/-- C8 witness: the amended theorem applied at an empty template (error) and
at the canonical baseline template with one point and one draw (value 0). -/
theorem C8_witness :
    simulate_match_points [] [] 1 [] = Except.error "Team templates cannot be empty" ∧
    ((0 : ℚ) ≤ 0 ∧ (0 : ℚ) ≤ 1) := by
  constructor
  · exact (C8_amended_win_fraction [] [] 1 [] (by decide)).1 (Or.inl rfl)
  · have h := (C8_amended_win_fraction baseline_template baseline_template 1
      [1/20] (by decide)).2 0 [] (by decide)
    exact ⟨h.1, h.2.1⟩

/-- C9: a rally outcome containing neither "serving" nor "receiving" (the
step-budget outcome) scores for neither team, while the value returned by
`simulate_match_points` keeps dividing the accumulated wins by the full
`num_points`, so such points deflate the reported fraction instead of being
excluded. -/
theorem C9_budget_exceeded_counts_zero :
    (∀ (serving_team_is_a : Bool) (outcome : String),
      strContains "serving" outcome = false →
      strContains "receiving" outcome = false →
      pointIncrement serving_team_is_a outcome = 0) ∧
    (∀ (team_a team_b : Template) (n : Nat) (draws : List ℚ) (wins : Nat)
        (rest : List ℚ), team_a ≠ [] → team_b ≠ [] → n ≠ 0 →
      matchLoop team_a team_b n 0 0 draws = Except.ok (wins, rest) →
      simulate_match_points team_a team_b n draws =
        Except.ok ((wins : ℚ) / (n : ℚ), rest)) := by
  constructor
  · intro sa outcome h1 h2
    unfold pointIncrement
    rw [h1, h2]
    simp
  · intro a b n draws wins rest ha hb hn hml
    unfold simulate_match_points
    have hea : a.isEmpty = false := by
      cases a
      · exact absurd rfl ha
      · rfl
    have heb : b.isEmpty = false := by
      cases b
      · exact absurd rfl hb
      · rfl
    rw [hea, heb]
    simp only [Bool.or_self, Bool.false_eq_true, if_false, hml]
    have hne : (n == 0) = false := by
      simp only [beq_eq_false_iff_ne, ne_eq]
      exact hn
    rw [hne]
    simp

/-- C9 witness: the zero increment at the step-budget outcome string, and a
one-point match (immediate ace template) whose returned value is the win
count divided by the point count. -/
theorem C9_witness :
    pointIncrement true "Rally exceeded 50 steps" = 0 ∧
    simulate_match_points [("s_serve_ready", [("s_serve_ace", (1:ℚ))])]
      [("s_serve_ready", [("s_serve_ace", (1:ℚ))])] 1 [] = Except.ok (1, []) := by
  constructor
  · exact C9_budget_exceeded_counts_zero.1 true "Rally exceeded 50 steps"
      (by decide) (by decide)
  · have h := C9_budget_exceeded_counts_zero.2
      [("s_serve_ready", [("s_serve_ace", (1:ℚ))])]
      [("s_serve_ready", [("s_serve_ace", (1:ℚ))])] 1 [] 1 []
      (by decide) (by decide) (by decide) (by decide)
    simpa using h

/-- C4: if the simulated baseline win rate is 0, the elasticity division
raises Python's `ZeroDivisionError`; `calculate_elasticity` reports that
division-by-zero error and returns its explicit sentinel 0 — not an
arbitrary float, and not silently. -/
theorem C4_zero_baseline_reports_division_error
    (stat : String) (pct : ℚ) (n : Nat) (draws d2 : List ℚ)
    (msm : RallyStateMachine) (r : ℚ) (d3 : List ℚ)
    (hb : simulate_match_points baseline_template baseline_template n draws =
      Except.ok (0, d2))
    (hc : create_modified_state_machine stat (1 + pct) = Except.ok msm)
    (hi : simulate_match_points (convert_state_machine_to_template msm)
      baseline_template n d2 = Except.ok (r, d3)) :
    pyDiv (r - 0) (0 * pct) = Except.error "float division by zero" ∧
    calculate_elasticity stat pct n draws =
      Except.ok (0, ["Error calculating elasticity for " ++ stat ++
        ": float division by zero"]) := by
  constructor
  · simp [pyDiv]
  · simp only [baseline_template] at hb hi
    simp only [calculate_elasticity, hb, hc, hi, pyDiv, zero_mul, if_pos rfl]
    simp only [if_true]
    rw [String.append_assoc,
      show (": " ++ "float division by zero" : String) = ": float division by zero"
        from by decide]

/-- C4 witness: one point, one draw hitting the serve error, so team A's
baseline win rate is 0; the elasticity for `serve_ace_rate` is then reported
as a division-by-zero with sentinel 0. -/
theorem C4_witness :
    pyDiv (1 - 0) (0 * (1/20)) = Except.error "float division by zero" ∧
    calculate_elasticity "serve_ace_rate" (1/20) 1 [1/20] =
      Except.ok (0,
        ["Error calculating elasticity for serve_ace_rate: float division by zero"]) := by
  have h := C4_zero_baseline_reports_division_error "serve_ace_rate" (1/20) 1 [1/20] []
    ((create_modified_state_machine "serve_ace_rate" (1 + 1/20)).toOption.getD
      { transitions := [], terminal_states := [], initial_state := "" })
    1 [] (by decide) (by decide) (by decide)
  simpa using h


lemma mem_of_lookup {α : Type} (l : List (String × α)) (k : String) (v : α)
    (h : l.lookup k = some v) : (k, v) ∈ l := by
  induction l with
  | nil => simp [List.lookup] at h
  | cons e rest ih =>
    obtain ⟨ke, ve⟩ := e
    cases hk : (k == ke) <;> rw [List.lookup_cons, hk] at h
    · exact List.mem_cons_of_mem _ (ih h)
    · have h1 : k = ke := beq_iff_eq.mp hk
      have h2 : ve = v := by simpa using h
      subst h1
      subst h2
      exact List.mem_cons_self _ _

lemma mem_of_getLast?_eq {α : Type} (l : List α) (a : α) (h : l.getLast? = some a) :
    a ∈ l := by
  rcases l with _ | ⟨x, xs⟩
  · simp at h
  · rw [List.getLast?_eq_getLast_of_ne_nil (by simp)] at h
    have := Option.some.inj h
    exact this ▸ List.getLast_mem _

lemma cumFrom_getLast (ws : List ℚ) :
    ∀ acc : ℚ, ws ≠ [] → (cumFrom acc ws).getLast? = some (acc + ws.sum) := by
  induction ws with
  | nil => intro acc h; exact absurd rfl h
  | cons w ws2 ih =>
    intro acc _
    rcases ws2 with _ | ⟨w2, ws3⟩
    · simp [cumFrom]
    · have hshape : cumFrom (acc + w) (w2 :: ws3) =
          (acc + w + w2) :: cumFrom (acc + w + w2) ws3 := rfl
      show ((acc + w) :: cumFrom (acc + w) (w2 :: ws3)).getLast? = _
      rw [hshape, List.getLast?_cons_cons, ← hshape, ih (acc + w) (by simp)]
      simp only [List.sum_cons, Option.some.injEq]
      ring

lemma bisectRight_le (x : ℚ) (hi : Nat) :
    ∀ (cs : List ℚ) (j : Nat), bisectRight x hi j cs ≤ hi := by
  intro cs
  induction cs with
  | nil => intro j; simp [bisectRight]
  | cons c cs2 ih =>
    intro j
    simp only [bisectRight]
    split_ifs with h1 h2
    · exact le_refl hi
    · omega
    · exact ih (j + 1)

lemma pyChoices_mem_ok (population : List String) (weights : List ℚ) (u : ℚ)
    (hne : population ≠ []) (hw : weights ≠ []) (hpos : 0 < weights.sum) :
    ∃ s, pyChoices population weights u = Except.ok s ∧ s ∈ population := by
  unfold pyChoices
  dsimp only
  rw [cumFrom_getLast weights 0 hw]
  simp only [Option.getD_some]
  rw [if_neg (by linarith)]
  have hlen : 0 < population.length := List.length_pos.mpr hne
  have hidx : bisectRight (u * (0 + weights.sum)) (population.length - 1) 0
      (cumFrom 0 weights) < population.length :=
    lt_of_le_of_lt (bisectRight_le _ _ _ _) (Nat.sub_lt hlen (by omega))
  rw [List.get?_eq_get hidx]
  exact ⟨_, rfl, List.get_mem _ _ _⟩

lemma simulate_rally_step_cases (sm : RallyStateMachine) (c : String)
    (draws : List ℚ) (ts : List Trans)
    (hterm : sm.is_terminal_state c = false)
    (hlk : sm.transitions.lookup c = some ts)
    (hpos : ts ≠ [] → 0 < transSum ts) :
    simulate_rally_step sm c draws = Except.ok (none, draws) ∨
    ∃ t ∈ ts, simulate_rally_step sm c draws =
      Except.ok (some t.1, (nextDraw draws).2) := by
  have hg : get_next_states sm c = Except.ok ts := by
    unfold get_next_states
    rw [hlk]
  unfold simulate_rally_step
  rw [hterm, hg]
  simp only [Bool.false_eq_true, if_false]
  rcases hts : ts with _ | ⟨t0, ts2⟩
  · left
    simp
  · right
    have hpos2 : 0 < ((t0 :: ts2).map fun t => t.2.1).sum := by
      have := hpos (by simp [hts])
      rw [hts] at this
      exact this
    obtain ⟨s, hok, hmem⟩ := pyChoices_mem_ok ((t0 :: ts2).map fun t => t.1)
      ((t0 :: ts2).map fun t => t.2.1) (nextDraw draws).1 (by simp) (by simp) hpos2
    obtain ⟨t, htmem, hteq⟩ := List.mem_map.mp hmem
    refine ⟨t, htmem, ?_⟩
    simp only [List.isEmpty_cons, Bool.false_eq_true, if_false]
    rw [hok, hteq]


lemma get_winning_team_ok (sm : RallyStateMachine)
    (hwin : ∀ s ∈ sm.terminal_states, serving_team_wins.contains s = true ∨
      receiving_team_wins.contains s = true)
    (s : String) (hs : sm.is_terminal_state s = true) :
    ∃ w, get_winning_team s = Except.ok w ∧ (w = "serving" ∨ w = "receiving") := by
  have hmem : s ∈ sm.terminal_states := by
    simpa [RallyStateMachine.is_terminal_state] using hs
  by_cases h2 : serving_team_wins.contains s = true
  · refine ⟨"serving", ?_, Or.inl rfl⟩
    unfold get_winning_team
    rw [if_pos h2]
  · rcases hwin s hmem with h | h
    · exact absurd h h2
    · refine ⟨"receiving", ?_, Or.inr rfl⟩
      unfold get_winning_team
      rw [if_neg h2, if_pos h]

lemma winner_ne_exceeded (w t : String) (hw : w = "serving" ∨ w = "receiving") :
    w ++ " team wins" ≠ "Rally exceeded " ++ t ++ " steps" := by
  intro heq
  have h2 := congrArg (fun s => s.data.head?) heq
  simp only at h2
  simp only [String.data_append] at h2
  rcases hw with h | h <;> subst h <;> simp at h2

lemma rallyFinish_ok (sm : RallyStateMachine) (ms : Nat)
    (hwin : ∀ s ∈ sm.terminal_states, serving_team_wins.contains s = true ∨
      receiving_team_wins.contains s = true)
    (seq : List String) (current : String) (draws : List ℚ)
    (hseq : ∀ x ∈ seq, sm.is_terminal_state x = false) :
    ∃ seq2 outcome rest,
      rallyFinish sm ms seq current draws = Except.ok (seq2, outcome, rest) ∧
      (outcome = "serving team wins" ∨ outcome = "receiving team wins" ∨
        outcome = "Rally exceeded " ++ toString ms ++ " steps") ∧
      seq2.length ≤ seq.length + 1 ∧
      ((∃ l, seq2.getLast? = some l ∧ sm.is_terminal_state l = true) ↔
        outcome ≠ "Rally exceeded " ++ toString ms ++ " steps") := by
  unfold rallyFinish
  cases hterm : sm.is_terminal_state current
  · simp only [Bool.false_eq_true, if_false]
    refine ⟨seq, _, draws, rfl, Or.inr (Or.inr rfl), by omega, ?_⟩
    constructor
    · rintro ⟨l, hl, hlt⟩
      rw [hseq l (mem_of_getLast?_eq seq l hl)] at hlt
      exact absurd hlt (by simp)
    · intro hne
      exact absurd rfl hne
  · obtain ⟨w, hgw, hw⟩ := get_winning_team_ok sm hwin current hterm
    rw [hgw]
    simp only [if_true]
    refine ⟨seq ++ [current], w ++ " team wins", draws, rfl, ?_, by simp, ?_⟩
    · rcases hw with h | h <;> subst h
      · exact Or.inl rfl
      · exact Or.inr (Or.inl rfl)
    · constructor
      · intro _
        exact winner_ne_exceeded w _ hw
      · intro _
        exact ⟨current, List.getLast?_concat seq, hterm⟩


lemma rallyLoop_ok (sm : RallyStateMachine) (ms : Nat)
    (hdest : ∀ e ∈ sm.transitions, ∀ t ∈ e.2, sm.is_terminal_state t.1 = true ∨
      (sm.transitions.lookup t.1).isSome = true)
    (hwin : ∀ s ∈ sm.terminal_states, serving_team_wins.contains s = true ∨
      receiving_team_wins.contains s = true)
    (hpos : ∀ e ∈ sm.transitions, e.2 ≠ [] → 0 < transSum e.2) :
    ∀ (remaining : Nat) (current : String) (seq : List String) (draws : List ℚ),
      (sm.is_terminal_state current = true ∨
        (sm.transitions.lookup current).isSome = true) →
      (∀ x ∈ seq, sm.is_terminal_state x = false) →
      ∃ seq2 outcome rest,
        rallyLoop sm ms remaining current seq draws = Except.ok (seq2, outcome, rest) ∧
        (outcome = "serving team wins" ∨ outcome = "receiving team wins" ∨
          outcome = "Rally exceeded " ++ toString ms ++ " steps") ∧
        seq2.length ≤ seq.length + remaining + 1 ∧
        ((∃ l, seq2.getLast? = some l ∧ sm.is_terminal_state l = true) ↔
          outcome ≠ "Rally exceeded " ++ toString ms ++ " steps") := by
  intro remaining
  induction remaining with
  | zero =>
    intro current seq draws _ hseq
    obtain ⟨seq2, outcome, rest, h1, h2, h3, h4⟩ :=
      rallyFinish_ok sm ms hwin seq current draws hseq
    exact ⟨seq2, outcome, rest, h1, h2, by omega, h4⟩
  | succ r ih =>
    intro current seq draws hcur hseq
    cases hterm : sm.is_terminal_state current
    · have hlk : ∃ ts, sm.transitions.lookup current = some ts := by
        rcases hcur with h | h
        · rw [hterm] at h
          exact absurd h (by simp)
        · exact Option.isSome_iff_exists.mp h
      obtain ⟨ts, hlk⟩ := hlk
      have hmem := mem_of_lookup _ _ _ hlk
      have hseq2 : ∀ x ∈ seq ++ [current], sm.is_terminal_state x = false := by
        intro x hx
        rcases List.mem_append.mp hx with h | h
        · exact hseq x h
        · rw [List.mem_singleton.mp h]
          exact hterm
      rcases simulate_rally_step_cases sm current draws ts hterm hlk
          (hpos _ hmem) with hstep | ⟨t, htmem, hstep⟩
      · obtain ⟨seq2, outcome, rest, h1, h2, h3, h4⟩ :=
          rallyFinish_ok sm ms hwin (seq ++ [current]) current draws hseq2
        have hred : rallyLoop sm ms (r + 1) current seq draws =
            rallyFinish sm ms (seq ++ [current]) current draws := by
          simp only [rallyLoop, hterm, Bool.false_eq_true, if_false, hstep]
        refine ⟨seq2, outcome, rest, by rw [hred]; exact h1, h2, ?_, h4⟩
        simp only [List.length_append, List.length_cons, List.length_nil] at h3
        omega
      · obtain ⟨seq2, outcome, rest, h1, h2, h3, h4⟩ :=
          ih t.1 (seq ++ [current]) (nextDraw draws).2 (hdest _ hmem t htmem) hseq2
        have hred : rallyLoop sm ms (r + 1) current seq draws =
            rallyLoop sm ms r t.1 (seq ++ [current]) (nextDraw draws).2 := by
          simp only [rallyLoop, hterm, Bool.false_eq_true, if_false, hstep]
        refine ⟨seq2, outcome, rest, by rw [hred]; exact h1, h2, ?_, h4⟩
        simp only [List.length_append, List.length_cons, List.length_nil] at h3
        omega
    · obtain ⟨seq2, outcome, rest, h1, h2, h3, h4⟩ :=
        rallyFinish_ok sm ms hwin seq current draws hseq
      have hred : rallyLoop sm ms (r + 1) current seq draws =
          rallyFinish sm ms seq current draws := by
        simp only [rallyLoop, hterm, if_true]
      exact ⟨seq2, outcome, rest, by rw [hred]; exact h1, h2, by omega, h4⟩


theorem C6_counterexample_dangling_state :
    simulate_complete_rally
      { transitions := [("a", [("b", 1, ActionType.serve)])],
        terminal_states := [], initial_state := "a" } 50 [0, 0] =
      Except.error "Invalid state: b" := by
  decide

theorem C6_amended_rally_terminates (sm : RallyStateMachine) (max_steps : Nat)
    (draws : List ℚ)
    (hinit : sm.is_terminal_state sm.initial_state = true ∨
      (sm.transitions.lookup sm.initial_state).isSome = true)
    (hdest : ∀ e ∈ sm.transitions, ∀ t ∈ e.2, sm.is_terminal_state t.1 = true ∨
      (sm.transitions.lookup t.1).isSome = true)
    (hwin : ∀ s ∈ sm.terminal_states, serving_team_wins.contains s = true ∨
      receiving_team_wins.contains s = true)
    (hpos : ∀ e ∈ sm.transitions, e.2 ≠ [] → 0 < transSum e.2) :
    ∃ seq outcome rest,
      simulate_complete_rally sm max_steps draws = Except.ok (seq, outcome, rest) ∧
      (outcome = "serving team wins" ∨ outcome = "receiving team wins" ∨
        outcome = "Rally exceeded " ++ toString max_steps ++ " steps") ∧
      seq.length ≤ max_steps + 1 ∧
      ((∃ l, seq.getLast? = some l ∧ sm.is_terminal_state l = true) ↔
        outcome ≠ "Rally exceeded " ++ toString max_steps ++ " steps") := by
  obtain ⟨seq2, outcome, rest, h1, h2, h3, h4⟩ :=
    rallyLoop_ok sm max_steps hdest hwin hpos max_steps sm.initial_state [] draws
      hinit (by simp)
  exact ⟨seq2, outcome, rest, h1, h2, by simpa using h3, h4⟩

theorem C6_witness :
    ∃ seq outcome rest,
      simulate_complete_rally create_beach_volleyball_state_machine 50 [] =
        Except.ok (seq, outcome, rest) ∧
      (outcome = "serving team wins" ∨ outcome = "receiving team wins" ∨
        outcome = "Rally exceeded " ++ toString 50 ++ " steps") ∧
      seq.length ≤ 50 + 1 ∧
      ((∃ l, seq.getLast? = some l ∧
          (create_beach_volleyball_state_machine).is_terminal_state l = true) ↔
        outcome ≠ "Rally exceeded " ++ toString 50 ++ " steps") :=
  C6_amended_rally_terminates create_beach_volleyball_state_machine 50 []
    (by decide) (by decide) (by decide) (by decide)

lemma transSum_cons (t : Trans) (ts : List Trans) :
    transSum (t :: ts) = t.2.1 + transSum ts := by
  simp [transSum]

lemma sumOthers_of_lt (i : Nat) (ts : List Trans) :
    ∀ j : Nat, i < j → sumOthers i j ts = transSum ts := by
  induction ts with
  | nil => intro j _; rfl
  | cons t0 rest ih =>
    intro j h
    rw [show sumOthers i j (t0 :: rest) =
      (if j = i then 0 else t0.2.1) + sumOthers i (j + 1) rest from rfl]
    rw [if_neg (by omega), ih (j + 1) (by omega), transSum_cons]

lemma sumOthers_of_get (ts : List Trans) :
    ∀ (i j : Nat) (t : Trans), j ≤ i → ts.get? (i - j) = some t →
      sumOthers i j ts = transSum ts - t.2.1 := by
  induction ts with
  | nil => intro i j t _ hget; simp at hget
  | cons t0 rest ih =>
    intro i j t hij hget
    by_cases hji : j = i
    · subst hji
      rw [Nat.sub_self] at hget
      have ht : t0 = t := by simpa using hget
      subst ht
      rw [show sumOthers j j (t0 :: rest) =
        (if j = j then 0 else t0.2.1) + sumOthers j (j + 1) rest from rfl,
        if_pos rfl, sumOthers_of_lt j rest (j + 1) (by omega), transSum_cons]
      ring
    · have hsub : i - j = (i - (j + 1)) + 1 := by omega
      rw [hsub, List.get?_cons_succ] at hget
      rw [show sumOthers i j (t0 :: rest) =
        (if j = i then 0 else t0.2.1) + sumOthers i (j + 1) rest from rfl,
        if_neg hji, ih i (j + 1) t (by omega) hget, transSum_cons]
      ring

lemma buildNT_of_lt (i : Nat) (np s : ℚ) (ts : List Trans) :
    ∀ j : Nat, i < j →
      transSum (buildNewTransitions i np s j ts) = transSum ts * s := by
  induction ts with
  | nil => intro j _; simp [buildNewTransitions, transSum]
  | cons t0 rest ih =>
    intro j h
    rw [show buildNewTransitions i np s j (t0 :: rest) =
      (if j = i then (t0.1, np, t0.2.2) else (t0.1, t0.2.1 * s, t0.2.2)) ::
        buildNewTransitions i np s (j + 1) rest from rfl]
    rw [if_neg (by omega), transSum_cons, ih (j + 1) (by omega), transSum_cons]
    dsimp only
    ring

lemma buildNT_of_get (ts : List Trans) :
    ∀ (i j : Nat) (np s : ℚ) (t : Trans), j ≤ i → ts.get? (i - j) = some t →
      transSum (buildNewTransitions i np s j ts) =
        np + (transSum ts - t.2.1) * s := by
  induction ts with
  | nil => intro i j np s t _ hget; simp at hget
  | cons t0 rest ih =>
    intro i j np s t hij hget
    by_cases hji : j = i
    · subst hji
      rw [Nat.sub_self] at hget
      have ht : t0 = t := by simpa using hget
      subst ht
      rw [show buildNewTransitions j np s j (t0 :: rest) =
        (if j = j then (t0.1, np, t0.2.2) else (t0.1, t0.2.1 * s, t0.2.2)) ::
          buildNewTransitions j np s (j + 1) rest from rfl,
        if_pos rfl, transSum_cons, buildNT_of_lt j np s rest (j + 1) (by omega),
        transSum_cons]
      dsimp only
      ring
    · have hsub : i - j = (i - (j + 1)) + 1 := by omega
      rw [hsub, List.get?_cons_succ] at hget
      rw [show buildNewTransitions i np s j (t0 :: rest) =
        (if j = i then (t0.1, np, t0.2.2) else (t0.1, t0.2.1 * s, t0.2.2)) ::
          buildNewTransitions i np s (j + 1) rest from rfl,
        if_neg hji, transSum_cons, ih i (j + 1) np s t (by omega) hget,
        transSum_cons]
      dsimp only
      ring


lemma improveList_isSome (ts : List Trans) (i : Nat) (factor : ℚ) (t : Trans)
    (hget : ts.get? i = some t) (h0 : 0 < t.2.1) (h1 : t.2.1 < 1)
    (hsum : transSum ts = 1) (hf : 1 < factor) :
    ∃ nts, improveList ts i factor = some nts := by
  unfold improveList
  rw [hget]
  show ∃ nts, improveCore ts i t.2.1 factor = some nts
  unfold improveCore
  dsimp only
  have hother : sumOthers i 0 ts = 1 - t.2.1 := by
    rw [sumOthers_of_get ts i 0 t (by omega) (by simpa using hget), hsum]
  rw [hother]
  by_cases hcap : (1 : ℚ) < t.2.1 + t.2.1 * (factor - 1)
  · rw [if_pos hcap, if_pos hcap,
      if_pos (And.intro (by linarith) (by linarith))]
    exact ⟨_, rfl⟩
  · rw [if_neg hcap, if_neg hcap,
      if_pos (And.intro (by linarith) (mul_pos h0 (by linarith)))]
    exact ⟨_, rfl⟩

lemma improveList_sum (ts : List Trans) (i : Nat) (factor : ℚ) (nts : List Trans)
    (hsum : transSum ts = 1) (h : improveList ts i factor = some nts) :
    transSum nts = 1 := by
  unfold improveList at h
  cases hget : ts.get? i with
  | none =>
    rw [hget] at h
    exact absurd h (by simp)
  | some t =>
    rw [hget] at h
    replace h : improveCore ts i t.2.1 factor = some nts := h
    unfold improveCore at h
    dsimp only at h
    have hother : sumOthers i 0 ts = 1 - t.2.1 := by
      rw [sumOthers_of_get ts i 0 t (by omega) (by simpa using hget), hsum]
    rw [hother] at h
    by_cases hcap : (1 : ℚ) < t.2.1 + t.2.1 * (factor - 1)
    · rw [if_pos hcap, if_pos hcap] at h
      split_ifs at h with hc1 hc2
      · have hb : transSum (buildNewTransitions i 1
            (1 - (1 - t.2.1) / (1 - t.2.1)) 0 ts) = 1 := by
          rw [buildNT_of_get ts i 0 1 _ t (by omega) (by simpa using hget), hsum]
          rw [div_self (ne_of_gt hc1.1)]
          ring
        rw [hb] at hc2
        norm_num at hc2
      · injection h with h2
        rw [← h2]
        rw [buildNT_of_get ts i 0 1 _ t (by omega) (by simpa using hget), hsum]
        rw [div_self (ne_of_gt hc1.1)]
        ring
    · rw [if_neg hcap, if_neg hcap] at h
      split_ifs at h with hc1 hc2
      · have hb : transSum (buildNewTransitions i (t.2.1 + t.2.1 * (factor - 1))
            (1 - t.2.1 * (factor - 1) / (1 - t.2.1)) 0 ts) = 1 := by
          rw [buildNT_of_get ts i 0 _ _ t (by omega) (by simpa using hget), hsum]
          have hne : (1 : ℚ) - t.2.1 ≠ 0 := ne_of_gt hc1.1
          field_simp
        rw [hb] at hc2
        norm_num at hc2
      · injection h with h2
        rw [← h2]
        rw [buildNT_of_get ts i 0 _ _ t (by omega) (by simpa using hget), hsum]
        have hne : (1 : ℚ) - t.2.1 ≠ 0 := ne_of_gt hc1.1
        field_simp


lemma modifyTransitions_sums (stat_name : String) (factor : ℚ) :
    ∀ trs : List (String × List Trans), (∀ e ∈ trs, transSum e.2 = 1) →
      ∀ e ∈ (modifyTransitions stat_name factor trs).1, transSum e.2 = 1 := by
  intro trs
  induction trs with
  | nil =>
    intro _ e he
    simp [modifyTransitions] at he
  | cons p rest ih =>
    intro hall e he
    obtain ⟨st, ts⟩ := p
    simp only [modifyTransitions] at he
    rcases hidx : ts.findIdx? (fun t => shouldModify stat_name st t.1) with _ | i <;>
      rw [hidx] at he
    · replace he : e ∈ (st, ts) :: (modifyTransitions stat_name factor rest).1 := he
      rcases List.mem_cons.mp he with rfl | hmem
      · exact hall _ (List.mem_cons_self _ _)
      · exact ih (fun e2 he2 => hall e2 (List.mem_cons_of_mem _ he2)) e hmem
    · replace he : e ∈ (match improveList ts i factor with
        | none => ((st, ts) :: (modifyTransitions stat_name factor rest).1,
            (modifyTransitions stat_name factor rest).2)
        | some new_transitions =>
            ((st, new_transitions) :: (modifyTransitions stat_name factor rest).1,
              true)).1 := he
      rcases himp : improveList ts i factor with _ | nts <;> rw [himp] at he
      · replace he : e ∈ (st, ts) :: (modifyTransitions stat_name factor rest).1 := he
        rcases List.mem_cons.mp he with rfl | hmem
        · exact hall _ (List.mem_cons_self _ _)
        · exact ih (fun e2 he2 => hall e2 (List.mem_cons_of_mem _ he2)) e hmem
      · replace he : e ∈ (st, nts) :: (modifyTransitions stat_name factor rest).1 := he
        rcases List.mem_cons.mp he with rfl | hmem
        · exact improveList_sum ts i factor nts
            (hall _ (List.mem_cons_self _ _)) himp
        · exact ih (fun e2 he2 => hall e2 (List.mem_cons_of_mem _ he2)) e hmem

lemma modifyTransitions_applied (stat_name : String) (factor : ℚ) :
    ∀ (trs : List (String × List Trans)) (st : String) (ts : List Trans)
      (i : Nat) (nts : List Trans), (st, ts) ∈ trs →
      ts.findIdx? (fun t => shouldModify stat_name st t.1) = some i →
      improveList ts i factor = some nts →
      (modifyTransitions stat_name factor trs).2 = true := by
  intro trs
  induction trs with
  | nil =>
    intro st ts i nts hmem _ _
    simp at hmem
  | cons p rest ih =>
    intro st ts i nts hmem hidx himp
    obtain ⟨st0, ts0⟩ := p
    rcases List.mem_cons.mp hmem with heq | hmem2
    · rw [Prod.mk.injEq] at heq
      obtain ⟨rfl, rfl⟩ := heq
      simp only [modifyTransitions, hidx, himp]
    · have hr := ih st ts i nts hmem2 hidx himp
      simp only [modifyTransitions]
      rcases hidx0 : ts0.findIdx? (fun t => shouldModify stat_name st0 t.1) with _ | i0
      · simpa [hidx0] using hr
      · rcases himp0 : improveList ts0 i0 factor with _ | nts0
        · simpa [hidx0, himp0] using hr
        · simp [hidx0, himp0]


lemma canonical_sums :
    ∀ e ∈ (create_beach_volleyball_state_machine).transitions, transSum e.2 = 1 := by
  decide

/-- C1: for every supported statistic name and every improvement factor
greater than 1, `create_modified_state_machine` succeeds and the perturbed
machine passes the source's own `validate_probabilities` check: every
continuation state's outgoing probabilities (the perturbed state's included)
sum to 1 within 0.001 — in exact arithmetic they sum to exactly 1. -/
theorem C1_perturbed_machine_valid (stat_name : String) (factor : ℚ)
    (hs : stat_name ∈ supported_stats) (hf : 1 < factor) :
    ∃ sm, create_modified_state_machine stat_name factor = Except.ok sm ∧
      sm.validate_probabilities = true ∧
      ∀ e ∈ sm.transitions, |transSum e.2 - 1| ≤ 1/1000 := by
  have happ : (modifyTransitions stat_name factor
      (create_beach_volleyball_state_machine).transitions).2 = true := by
    fin_cases hs
    · obtain ⟨nts, hnts⟩ := improveList_isSome
        [("s_serve_ace", 0.04, ActionType.serve),
         ("s_serve_error", 0.12, ActionType.serve),
         ("s_serve_in_play", 0.84, ActionType.serve)] 0 factor
        ("s_serve_ace", 0.04, ActionType.serve)
        (by decide) (by norm_num) (by norm_num) (by decide) hf
      exact modifyTransitions_applied _ factor _ "s_serve_ready" _ 0 nts
        (by decide) (by decide) hnts
    · obtain ⟨nts, hnts⟩ := improveList_isSome
        [("s_serve_ace", 0.04, ActionType.serve),
         ("s_serve_error", 0.12, ActionType.serve),
         ("s_serve_in_play", 0.84, ActionType.serve)] 1 factor
        ("s_serve_error", 0.12, ActionType.serve)
        (by decide) (by norm_num) (by norm_num) (by decide) hf
      exact modifyTransitions_applied _ factor _ "s_serve_ready" _ 1 nts
        (by decide) (by decide) hnts
    · obtain ⟨nts, hnts⟩ := improveList_isSome
        [("r_reception_error", 0.15, ActionType.reception),
         ("r_reception_perfect", 0.35, ActionType.reception),
         ("r_reception_good", 0.50, ActionType.reception)] 1 factor
        ("r_reception_perfect", 0.35, ActionType.reception)
        (by decide) (by norm_num) (by norm_num) (by decide) hf
      exact modifyTransitions_applied _ factor _ "s_serve_in_play" _ 1 nts
        (by decide) (by decide) hnts
    · obtain ⟨nts, hnts⟩ := improveList_isSome
        [("r_reception_error", 0.15, ActionType.reception),
         ("r_reception_perfect", 0.35, ActionType.reception),
         ("r_reception_good", 0.50, ActionType.reception)] 2 factor
        ("r_reception_good", 0.50, ActionType.reception)
        (by decide) (by norm_num) (by norm_num) (by decide) hf
      exact modifyTransitions_applied _ factor _ "s_serve_in_play" _ 2 nts
        (by decide) (by decide) hnts
    · obtain ⟨nts, hnts⟩ := improveList_isSome
        [("r_attack_kill", 0.42, ActionType.attack),
         ("r_attack_error", 0.10, ActionType.attack),
         ("r_attack_blocked", 0.18, ActionType.attack),
         ("r_attack_defended", 0.30, ActionType.attack)] 0 factor
        ("r_attack_kill", 0.42, ActionType.attack)
        (by decide) (by norm_num) (by norm_num) (by decide) hf
      exact modifyTransitions_applied _ factor _ "r_set_perfect" _ 0 nts
        (by decide) (by decide) hnts
    · obtain ⟨nts, hnts⟩ := improveList_isSome
        [("r_attack_kill", 0.28, ActionType.attack),
         ("r_attack_error", 0.12, ActionType.attack),
         ("r_attack_blocked", 0.27, ActionType.attack),
         ("r_attack_defended", 0.33, ActionType.attack)] 0 factor
        ("r_attack_kill", 0.28, ActionType.attack)
        (by decide) (by norm_num) (by norm_num) (by decide) hf
      exact modifyTransitions_applied _ factor _ "r_set_good" _ 0 nts
        (by decide) (by decide) hnts
    · obtain ⟨nts, hnts⟩ := improveList_isSome
        [("s_dig_error", 0.30, ActionType.dig),
         ("s_dig_perfect", 0.35, ActionType.dig),
         ("s_dig_good", 0.35, ActionType.dig)] 1 factor
        ("s_dig_perfect", 0.35, ActionType.dig)
        (by decide) (by norm_num) (by norm_num) (by decide) hf
      exact modifyTransitions_applied _ factor _ "r_attack_defended" _ 1 nts
        (by decide) (by decide) hnts
    · obtain ⟨nts, hnts⟩ := improveList_isSome
        [("s_block_kill", 0.20, ActionType.block),
         ("s_block_error", 0.15, ActionType.block),
         ("s_dig_perfect", 0.35, ActionType.block),
         ("s_dig_good", 0.30, ActionType.block)] 0 factor
        ("s_block_kill", 0.20, ActionType.block)
        (by decide) (by norm_num) (by norm_num) (by decide) hf
      exact modifyTransitions_applied _ factor _ "r_attack_blocked" _ 0 nts
        (by decide) (by decide) hnts
  have hall := modifyTransitions_sums stat_name factor
    (create_beach_volleyball_state_machine).transitions canonical_sums
  unfold create_modified_state_machine
  dsimp only
  rw [happ, if_pos rfl]
  refine ⟨_, rfl, ?_, ?_⟩
  · unfold RallyStateMachine.validate_probabilities
    rw [List.all_eq_true]
    intro e he
    have h1 := hall e he
    simp [h1]
  · intro e he
    rw [hall e he]
    norm_num

/-- C1 witness: the theorem at `serve_ace_rate` with factor 1.05. -/
theorem C1_witness :
    ∃ sm, create_modified_state_machine "serve_ace_rate" (21/20) = Except.ok sm ∧
      sm.validate_probabilities = true ∧
      ∀ e ∈ sm.transitions, |transSum e.2 - 1| ≤ 1/1000 :=
  C1_perturbed_machine_valid "serve_ace_rate" (21/20) (by decide) (by norm_num)


end BVSim
